import Mathlib

/-!
Verification development for the `api-crud-postgres` user CRUD service.

The embedding below translates the source files into Lean:
* `src/models/userModel.js` — the persistence layer (`createUserService`,
  `getAllUsersService`, `getUserByIdService`, `updateUserService`,
  `deleteUserService`) over a functional model of the `users` table.
* `src/middlewares/inputValidator.js` — the Joi create/update schemas
  (`validateUser`, `validateUpdateUser`).
* `src/middlewares/errorHandler.js` — the terminal error translator.
* `src/routes/userRoutes.js` — the route table and the names it binds.

The request handlers (`src/controller/userController.js`) are not part of the
given sources; where a claim depends on them they are modelled from the spec,
and each such definition carries a doc comment starting `Modelled from the
spec:`.
-/

/-- A JavaScript value appearing in a JSON request body field. -/
inductive JsValue where
  | str (s : String)
  | num (n : Int)
deriving Repr, DecidableEq

/-- A request body for the user endpoints: the two schema fields, plus the
names of any other keys present in the JSON object. -/
structure Payload where
  name : Option JsValue
  email : Option JsValue
  extra : List String
deriving Repr, DecidableEq

/-- Outcome of a validation middleware: `pass` means `next()` was called and
control flows to the handler; `fail st m` means the middleware responded with
`res.status(st).json(\x7b status, message \x7d)` and the handler is never reached. -/
inductive ValidationOutcome where
  | pass
  | fail (status : Nat) (message : String)
deriving Repr, DecidableEq

/-- Status carried by a validation outcome, `none` when validation passed. -/
def ValidationOutcome.statusOf : ValidationOutcome → Option Nat
  | .pass => none
  | .fail st _ => some st

/-- Split a character list on a separator; the groups between separators,
as `String.splitOn` does on the underlying characters. -/
def splitOnChar (sep : Char) : List Char → List (List Char)
  | [] => [[]]
  | c :: cs =>
    let rest := splitOnChar sep cs
    if c = sep then [] :: rest
    else (c :: rest.headD []) :: rest.tail

/-- Model of the Joi email-format check used by `Joi.string().email()`:
one `@` separating a nonempty local part from a domain of at least two
nonempty dot-separated labels. -/
def isEmailFormat (s : String) : Bool :=
  match splitOnChar '@' s.data with
  | [localPart, domain] =>
    !localPart.isEmpty &&
      (let labels := splitOnChar '.' domain
       decide (2 ≤ labels.length) && labels.all (fun l => !l.isEmpty))
  | _ => false

/-- `useSchema`, `name` rule: `Joi.string().min(3).required()`. Returns the
first violated rule message, `none` when the field satisfies the rule. -/
def checkRequiredName : Option JsValue → Option String
  | none => some "name is required"
  | some (.num _) => some "name must be a string"
  | some (.str s) =>
    if s.length < 3 then some "name length must be at least 3 characters long"
    else none

/-- `useSchema`, `email` rule: `Joi.string().email().required()`. -/
def checkRequiredEmail : Option JsValue → Option String
  | none => some "email is required"
  | some (.num _) => some "email must be a string"
  | some (.str s) =>
    if isEmailFormat s then none else some "email must be a valid email"

/-- `validateUser` from `src/middlewares/inputValidator.js`: validates the
body against `useSchema` (both fields required, unknown keys not allowed —
the Joi default) and responds 400 with the first error message on failure. -/
def validateUser (p : Payload) : ValidationOutcome :=
  match checkRequiredName p.name with
  | some m => .fail 400 m
  | none =>
    match checkRequiredEmail p.email with
    | some m => .fail 400 m
    | none =>
      match p.extra with
      | [] => .pass
      | k :: _ => .fail 400 (k ++ " is not allowed")

/-- `updateUserSchema`, `name` rule: `Joi.string().min(3)` (optional). -/
def checkOptionalName : Option JsValue → Option String
  | none => none
  | some (.num _) => some "name must be a string"
  | some (.str s) =>
    if s.length < 3 then some "name length must be at least 3 characters long"
    else none

/-- `updateUserSchema`, `email` rule: `Joi.string().email()` (optional). -/
def checkOptionalEmail : Option JsValue → Option String
  | none => none
  | some (.num _) => some "email must be a string"
  | some (.str s) =>
    if isEmailFormat s then none else some "email must be a valid email"

/-- Number of keys in the body object, as counted by `Joi.object(...).min(1)`. -/
def keyCount (p : Payload) : Nat :=
  (if p.name.isSome then 1 else 0) + (if p.email.isSome then 1 else 0) +
    p.extra.length

/-- `validateUpdateUser` from `src/middlewares/inputValidator.js`: both fields
optional, unknown keys not allowed, and `.min(1)` requires at least one key. -/
def validateUpdateUser (p : Payload) : ValidationOutcome :=
  match checkOptionalName p.name with
  | some m => .fail 400 m
  | none =>
    match checkOptionalEmail p.email with
    | some m => .fail 400 m
    | none =>
      match p.extra with
      | k :: _ => .fail 400 (k ++ " is not allowed")
      | [] =>
        if keyCount p < 1 then .fail 400 "value must have at least 1 key"
        else .pass

/-- The named exports of `src/middlewares/inputValidator.js`. -/
def inputValidatorNamedExports : List String :=
  ["validateUser", "validateUpdateUser"]

/-- Resolution of an imported middleware name against the validator module:
only its named exports resolve, any other name is undefined. -/
def resolveValidator (n : String) : Option (Payload → ValidationOutcome) :=
  if n = "validateUser" then some validateUser
  else if n = "validateUpdateUser" then some validateUpdateUser
  else none

/-- A registered Express route from `src/routes/userRoutes.js`: HTTP method,
path, and the chain of middleware/handler names passed to the router. -/
structure Route where
  method : String
  path : String
  handlers : List String
deriving Repr, DecidableEq

/-- The route table built in `src/routes/userRoutes.js`. -/
def routerRoutes : List Route :=
  [ { method := "get", path := "/user", handlers := ["getAllUsers"] },
    { method := "get", path := "/user/:id", handlers := ["getUserById"] },
    { method := "post", path := "/user", handlers := ["validateUser", "createUser"] },
    { method := "put", path := "/user/:id", handlers := ["validateUpdadeUser", "updateUser"] },
    { method := "delete", path := "/user/:id", handlers := ["deleteUser"] } ]

/-- A row of the `users` table. `name` and `email` are nullable column values:
the services bind whatever the handler passes, and a JS `undefined` argument is
sent as SQL `NULL` (modelled by `none`). The `created_at` column is assigned by
the database and never touched by any statement in the model layer, so it is
omitted. -/
structure UserRow where
  id : Nat
  name : Option String
  email : Option String
deriving Repr, DecidableEq

/-- Functional model of the `users` table: its rows plus the next value of the
`id` serial sequence. -/
structure DbState where
  rows : List UserRow
  nextId : Nat
deriving Repr, DecidableEq

/-- A postgres error as surfaced to the driver: the distinguishing field the
model layer inspects is `code`. -/
structure PgError where
  code : String
  message : String
deriving Repr, DecidableEq

/-- The unique-constraint violation raised when an INSERT or UPDATE collides
with the unique index on `users.email`. -/
def pgUniqueViolation : PgError :=
  { code := "23505", message := "duplicate key value violates unique constraint" }

/-- An error thrown out of the model layer: either a raw postgres error
propagated unchanged, or the application error built in a catch block
(a message plus an assigned `status` property). -/
inductive ThrownError where
  | pg (e : PgError)
  | app (message : String) (status : Nat)
deriving Repr, DecidableEq

/-- The `status` property of a thrown error, as read by the error handler:
raw postgres errors carry none. -/
def ThrownError.statusProp : ThrownError → Option Nat
  | .pg _ => none
  | .app _ st => some st

instance {ε α : Type} [DecidableEq ε] [DecidableEq α] :
    DecidableEq (Except ε α) := fun a b =>
  match a, b with
  | .ok x, .ok y => if h : x = y then isTrue (by simp [h]) else isFalse (by simp [h])
  | .ok _, .error _ => isFalse (by simp)
  | .error _, .ok _ => isFalse (by simp)
  | .error x, .error y => if h : x = y then isTrue (by simp [h]) else isFalse (by simp [h])

/-- Database execution of
`INSERT INTO users (name, email) VALUES ($1, $2) RETURNING *`: fails with the
unique violation when the inserted email collides with an existing row,
otherwise appends a fresh row with the next serial id and returns it. -/
def pgInsertUser (s : DbState) (name email : Option String) :
    Except PgError (UserRow × DbState) :=
  if email.isSome && s.rows.any (fun r => r.email = email) then
    .error pgUniqueViolation
  else
    let row : UserRow := { id := s.nextId, name := name, email := email }
    .ok (row, { rows := s.rows ++ [row], nextId := s.nextId + 1 })

/-- The catch block of `createUserService`: code 23505 is replaced by a new
error with message "Email already exists" and status 409; anything else is
rethrown unchanged. -/
def createCatch (e : PgError) : ThrownError :=
  if e.code = "23505" then .app "Email already exists" 409 else .pg e

/-- `createUserService` from `src/models/userModel.js`. -/
def createUserService (s : DbState) (name email : Option String) :
    Except ThrownError (UserRow × DbState) :=
  match pgInsertUser s name email with
  | .ok r => .ok r
  | .error e => .error (createCatch e)

/-- `getAllUsersService`: `SELECT * FROM users`. -/
def getAllUsersService (s : DbState) : List UserRow := s.rows

/-- `getUserByIdService`: `SELECT * FROM users WHERE id = $1`, returning
`result.rows[0]` (the row, or `undefined` when absent). -/
def getUserByIdService (s : DbState) (id : Nat) : Option UserRow :=
  s.rows.find? (fun r => r.id = id)

/-- Database execution of
`UPDATE users SET name = $1, email = $2 WHERE id = $3 RETURNING *`: when a row
with the given id exists, both columns are overwritten with the bound values
(the statement names both columns unconditionally); the update fails with the
unique violation when the new email collides with a different row. When no row
matches, the statement affects nothing and returns no row. -/
def pgUpdateUser (s : DbState) (id : Nat) (name email : Option String) :
    Except PgError (Option UserRow × DbState) :=
  match s.rows.find? (fun r => r.id = id) with
  | none => .ok (none, s)
  | some _ =>
    if email.isSome && s.rows.any (fun r => decide (r.id ≠ id) && r.email = email) then
      .error pgUniqueViolation
    else
      let newRow : UserRow := { id := id, name := name, email := email }
      .ok (some newRow,
        { rows := s.rows.map (fun r => if r.id = id then newRow else r),
          nextId := s.nextId })

/-- `updateUserService` from `src/models/userModel.js`: a bare query with no
try/catch — every database failure propagates unchanged. -/
def updateUserService (s : DbState) (id : Nat) (name email : Option String) :
    Except ThrownError (Option UserRow × DbState) :=
  match pgUpdateUser s id name email with
  | .ok r => .ok r
  | .error e => .error (.pg e)

/-- `deleteUserService`: `DELETE FROM users WHERE id = $1 RETURNING *`. -/
def deleteUserService (s : DbState) (id : Nat) : Option UserRow × DbState :=
  match s.rows.find? (fun r => r.id = id) with
  | none => (none, s)
  | some r => (some r, { rows := s.rows.filter (fun q => q.id ≠ id), nextId := s.nextId })

/-- The JSON body produced by the error handler. -/
structure ErrResponse where
  status : Nat
  message : String
  error : Option String
  stack : Option String
deriving Repr, DecidableEq

/-- `errorHandler` from `src/middlewares/errorHandler.js`: status is
`err.status || 500`, the body message is always the fixed generic text, and
the `error`/`stack` fields are attached exactly when `NODE_ENV` is not
"production". `mode` is the value of `NODE_ENV`. -/
def errorHandler (mode : String) (errStatus : Option Nat)
    (errMessage errStack : String) : ErrResponse :=
  { status := errStatus.getD 500,
    message := "An unexpected error occurred!",
    error := if mode ≠ "production" then some errMessage else none,
    stack := if mode ≠ "production" then some errStack else none }

/-- Digit-by-digit accumulation of a decimal numeral; `none` on the first
non-digit character. -/
def digitsToNat (acc : Nat) : List Char → Option Nat
  | [] => some acc
  | c :: cs =>
    if c.isDigit then digitsToNat (acc * 10 + (c.toNat - 48)) cs else none

/-- A nonempty all-digit character list read as a natural number. -/
def parseNatChars : List Char → Option Nat
  | [] => none
  | cs => digitsToNat 0 cs

/-- Modelled from the spec: the request handlers
(`src/controller/userController.js`) are not among the given sources. The spec
requires "the `id` path parameter must be coerced to a positive integer".
This parses an optional-sign integer string; anything else is non-numeric. -/
def parseIntStr (s : String) : Option Int :=
  match s.data with
  | [] => none
  | c :: cs =>
    if c = '-' then (parseNatChars cs).map (fun n => -(n : Int))
    else (parseNatChars (c :: cs)).map (fun n => (n : Int))

/-- Modelled from the spec: coercion of the `id` path parameter — "a
non-numeric or non-positive id is a request error, not forwarded to storage".
Yields the positive integer id, or `none` for a request error. -/
def coerceId (s : String) : Option Nat :=
  match parseIntStr s with
  | some n => if 0 < n then some n.toNat else none
  | none => none

/-- What a request handler did: the HTTP status of the response and how many
persistence-layer calls it made. -/
structure HandlerOutcome where
  status : Nat
  storageCalls : Nat
deriving Repr, DecidableEq

/-- The string value of a payload field as destructured by a handler
(`const \x7b name, email \x7d = req.body`); a missing field is `undefined`,
modelled as `none`. -/
def Payload.nameStr (p : Payload) : Option String :=
  match p.name with
  | some (.str s) => some s
  | _ => none

/-- The string value of the `email` field of a payload, `none` when absent. -/
def Payload.emailStr (p : Payload) : Option String :=
  match p.email with
  | some (.str s) => some s
  | _ => none

/-- Modelled from the spec: the getById handler — bad id yields 400 without
reaching storage; otherwise one `getUserByIdService` call, 200 with the row or
404 when absent. -/
def getUserByIdHandler (s : DbState) (idParam : String) : HandlerOutcome :=
  match coerceId idParam with
  | none => { status := 400, storageCalls := 0 }
  | some id =>
    match getUserByIdService s id with
    | some _ => { status := 200, storageCalls := 1 }
    | none => { status := 404, storageCalls := 1 }

/-- Modelled from the spec: the update handler — bad id yields 400 without
reaching storage; otherwise one `updateUserService` call, 200 with the row,
404 when no row matched, and the thrown error's status (default 500) on
failure. -/
def updateUserHandler (s : DbState) (idParam : String) (p : Payload) :
    HandlerOutcome :=
  match coerceId idParam with
  | none => { status := 400, storageCalls := 0 }
  | some id =>
    match updateUserService s id p.nameStr p.emailStr with
    | .ok (some _, _) => { status := 200, storageCalls := 1 }
    | .ok (none, _) => { status := 404, storageCalls := 1 }
    | .error e => { status := e.statusProp.getD 500, storageCalls := 1 }

/-- Modelled from the spec: the delete handler — bad id yields 400 without
reaching storage; otherwise one `deleteUserService` call, 200 with the deleted
row or 404 when absent. -/
def deleteUserHandler (s : DbState) (idParam : String) : HandlerOutcome :=
  match coerceId idParam with
  | none => { status := 400, storageCalls := 0 }
  | some id =>
    match deleteUserService s id with
    | (some _, _) => { status := 200, storageCalls := 1 }
    | (none, _) => { status := 404, storageCalls := 1 }

/-- Modelled from the spec: the create handler — "create → 201 with created
row"; a thrown error is forwarded and surfaces with its status (default 500).
Returns the outcome, the created row when any, and the resulting table state. -/
def createUserHandler (s : DbState) (name email : String) :
    (HandlerOutcome × Option UserRow) × DbState :=
  match createUserService s (some name) (some email) with
  | .ok (row, s2) => (({ status := 201, storageCalls := 1 }, some row), s2)
  | .error e => (({ status := e.statusProp.getD 500, storageCalls := 1 }, none), s)

/-- The claim-side create rule for `name`: present, a string, length at
least 3. -/
def nameRuleB : Option JsValue → Bool
  | some (.str s) => decide (3 ≤ s.length)
  | _ => false

/-- The claim-side create rule for `email`: present, a string, satisfying the
email format. -/
def emailRuleB : Option JsValue → Bool
  | some (.str s) => isEmailFormat s
  | _ => false

/-- A table holding the single user Ann. -/
def dbAnn : DbState :=
  { rows := [{ id := 1, name := some "Ann", email := some "ann@x.com" }],
    nextId := 2 }

/-- A table holding two users with distinct emails. -/
def dbAnnBea : DbState :=
  { rows := [{ id := 1, name := some "Ann", email := some "ann@x.com" },
             { id := 2, name := some "Bea", email := some "bea@x.com" }],
    nextId := 3 }

/-- An update body supplying only `name`. -/
def nameOnlyPayload : Payload :=
  { name := some (.str "Bob"), email := none, extra := [] }

/-- A create body with valid `name` and `email` plus one unknown key. -/
def unknownKeyPayload : Payload :=
  { name := some (.str "John"), email := some (.str "john@x.com"),
    extra := ["admin"] }

/-- Elements of a list prefix on which the predicate is false do not affect a
`find?` over the concatenation. -/
theorem find?_skip_front {α : Type} (p : α → Bool) (l1 l2 : List α)
    (h : ∀ x ∈ l1, p x = false) : (l1 ++ l2).find? p = l2.find? p := by
  have h1 : l1.find? p = none :=
    List.find?_eq_none.mpr (fun x hx => by simp [h x hx])
  simp [List.find?_append, h1]

/-- The create `name` check passes exactly on the claim-side name rule. -/
theorem checkRequiredName_none_iff (v : Option JsValue) :
    checkRequiredName v = none ↔ nameRuleB v = true := by
  cases v with
  | none => simp [checkRequiredName, nameRuleB]
  | some w =>
    cases w with
    | num n => simp [checkRequiredName, nameRuleB]
    | str s =>
      by_cases h : s.length < 3
      · simp [checkRequiredName, nameRuleB, h]
      · simp [checkRequiredName, nameRuleB, h]
        omega

/-- The create `email` check passes exactly on the claim-side email rule. -/
theorem checkRequiredEmail_none_iff (v : Option JsValue) :
    checkRequiredEmail v = none ↔ emailRuleB v = true := by
  cases v with
  | none => simp [checkRequiredEmail, emailRuleB]
  | some w =>
    cases w with
    | num n => simp [checkRequiredEmail, emailRuleB]
    | str s =>
      by_cases h : isEmailFormat s
      · simp [checkRequiredEmail, emailRuleB, h]
      · simp [checkRequiredEmail, emailRuleB, h]

/-- Claim C1, counterexample: the update body `\x7b name: "Bob" \x7d` passes
update validation and supplies only `name`, yet running `updateUserService` on
a table where user 1 has email "ann@x.com" does not leave `email` unchanged:
the fixed two-column UPDATE overwrites it with the absent value (NULL). -/
theorem update_name_only_overwrites_email_cex :
    validateUpdateUser nameOnlyPayload = ValidationOutcome.pass ∧
    nameOnlyPayload.nameStr = some "Bob" ∧
    nameOnlyPayload.emailStr = none ∧
    getUserByIdService dbAnn 1 =
      some { id := 1, name := some "Ann", email := some "ann@x.com" } ∧
    updateUserService dbAnn 1 nameOnlyPayload.nameStr nameOnlyPayload.emailStr =
      Except.ok (some { id := 1, name := some "Bob", email := none },
        { rows := [{ id := 1, name := some "Bob", email := none }], nextId := 2 }) ∧
    (some { id := 1, name := some "Bob", email := none } : Option UserRow) ≠
      some { id := 1, name := some "Bob", email := some "ann@x.com" } := by
  decide

/-- Claim C1 (amended): `updateUserService` never builds its column list from
the payload — the UPDATE statement is fixed and writes both `name` and `email`
on the targeted row, so every successful update that returns a row returns it
with both columns replaced by the values passed in. -/
theorem update_sets_both_columns (s : DbState) (id : Nat)
    (name email : Option String) (r : UserRow) (s2 : DbState)
    (h : updateUserService s id name email = Except.ok (some r, s2)) :
    r.id = id ∧ r.name = name ∧ r.email = email := by
  unfold updateUserService at h
  split at h
  next val heq =>
    injection h with h2
    subst h2
    unfold pgUpdateUser at heq
    split at heq
    · simp at heq
    · split at heq
      · simp at heq
      · simp only [Except.ok.injEq, Prod.mk.injEq, Option.some.injEq] at heq
        obtain ⟨h1, -⟩ := heq
        simp [← h1]
  next e heq => simp at h

/-- Claim C1, witness for the amended theorem at a concrete update. -/
theorem update_sets_both_columns_witness :
    ({ id := 1, name := some "Bob", email := some "bob@x.com" } : UserRow).id = 1 ∧
    ({ id := 1, name := some "Bob", email := some "bob@x.com" } : UserRow).name =
      some "Bob" ∧
    ({ id := 1, name := some "Bob", email := some "bob@x.com" } : UserRow).email =
      some "bob@x.com" :=
  update_sets_both_columns dbAnn 1 (some "Bob") (some "bob@x.com")
    { id := 1, name := some "Bob", email := some "bob@x.com" }
    { rows := [{ id := 1, name := some "Bob", email := some "bob@x.com" }],
      nextId := 2 }
    (by decide)

/-- Claim C2, counterexample: an update whose new email collides with another
row hits the uniqueness constraint (code 23505), but `updateUserService` has
no catch block — the raw postgres error propagates, carries no `status`
property, is not the 409 ConflictError, and the terminal error handler
surfaces it as 500. -/
theorem update_unique_violation_propagates_raw_cex :
    updateUserService dbAnnBea 2 (some "Bea") (some "ann@x.com") =
      Except.error (ThrownError.pg pgUniqueViolation) ∧
    pgUniqueViolation.code = "23505" ∧
    (ThrownError.pg pgUniqueViolation).statusProp = none ∧
    (errorHandler "production" (ThrownError.pg pgUniqueViolation).statusProp
        pgUniqueViolation.message "trace").status = 500 ∧
    Except.error (ThrownError.pg pgUniqueViolation) ≠
      (Except.error (ThrownError.app "Email already exists" 409) :
        Except ThrownError (Option UserRow × DbState)) := by
  decide

/-- Claim C2 (amended): only `createUserService` maps storage error code 23505
to the ConflictError with message "Email already exists" and status 409, and
re-signals every other storage failure unchanged; `updateUserService` has no
such mapping — every failure of its query, the uniqueness violation included,
is re-signaled unchanged as a raw error without a status (surfaced as 500). -/
theorem create_maps_conflict_update_propagates :
    (∀ e : PgError, e.code = "23505" →
      createCatch e = ThrownError.app "Email already exists" 409) ∧
    (∀ e : PgError, e.code ≠ "23505" → createCatch e = ThrownError.pg e) ∧
    (∀ (s : DbState) (id : Nat) (name email : Option String) (e : PgError),
      pgUpdateUser s id name email = Except.error e →
      updateUserService s id name email = Except.error (ThrownError.pg e)) ∧
    (∀ e : PgError, (ThrownError.pg e).statusProp = none) := by
  refine ⟨fun e he => ?_, fun e he => ?_,
    fun s id name email e he => ?_, fun e => rfl⟩
  · simp [createCatch, he]
  · simp [createCatch, he]
  · unfold updateUserService
    rw [he]

/-- Claim C2, witness for the amended theorem: the 23505 violation becomes the
409 conflict in create, while a connection failure is rethrown unchanged. -/
theorem create_maps_conflict_update_propagates_witness :
    createCatch pgUniqueViolation = ThrownError.app "Email already exists" 409 ∧
    createCatch { code := "08006", message := "connection failure" } =
      ThrownError.pg { code := "08006", message := "connection failure" } :=
  ⟨create_maps_conflict_update_propagates.1 pgUniqueViolation (by decide),
   create_maps_conflict_update_propagates.2.1
     { code := "08006", message := "connection failure" } (by decide)⟩

/-- Claim C3: for every id path parameter that is non-numeric or non-positive,
the getById, update and delete handlers respond 400 and invoke no persistence
operation (handlers modelled from the spec, the controller not being among the
given sources). -/
theorem bad_id_rejected_before_storage (s : DbState) (idParam : String)
    (p : Payload)
    (h : parseIntStr idParam = none ∨
      ∃ n : Int, parseIntStr idParam = some n ∧ n ≤ 0) :
    getUserByIdHandler s idParam = { status := 400, storageCalls := 0 } ∧
    updateUserHandler s idParam p = { status := 400, storageCalls := 0 } ∧
    deleteUserHandler s idParam = { status := 400, storageCalls := 0 } := by
  have hc : coerceId idParam = none := by
    unfold coerceId
    rcases h with h | ⟨n, hn, hle⟩
    · rw [h]
    · rw [hn]
      have : ¬ 0 < n := by omega
      simp [this]
  constructor
  · unfold getUserByIdHandler
    rw [hc]
  constructor
  · unfold updateUserHandler
    rw [hc]
  · unfold deleteUserHandler
    rw [hc]

/-- Claim C3, witness at the two ids named by the spec: "abc" and "-1". -/
theorem bad_id_rejected_before_storage_witness :
    (getUserByIdHandler { rows := [], nextId := 1 } "abc" =
        { status := 400, storageCalls := 0 } ∧
      updateUserHandler { rows := [], nextId := 1 } "abc"
          { name := some (.str "Bob"), email := none, extra := [] } =
        { status := 400, storageCalls := 0 } ∧
      deleteUserHandler { rows := [], nextId := 1 } "abc" =
        { status := 400, storageCalls := 0 }) ∧
    (getUserByIdHandler { rows := [], nextId := 1 } "-1" =
        { status := 400, storageCalls := 0 } ∧
      updateUserHandler { rows := [], nextId := 1 } "-1"
          { name := some (.str "Bob"), email := none, extra := [] } =
        { status := 400, storageCalls := 0 } ∧
      deleteUserHandler { rows := [], nextId := 1 } "-1" =
        { status := 400, storageCalls := 0 }) :=
  ⟨bad_id_rejected_before_storage { rows := [], nextId := 1 } "abc"
      { name := some (.str "Bob"), email := none, extra := [] }
      (Or.inl (by decide)),
   bad_id_rejected_before_storage { rows := [], nextId := 1 } "-1"
      { name := some (.str "Bob"), email := none, extra := [] }
      (Or.inr ⟨-1, by decide, by decide⟩)⟩

/-- Claim C4, counterexample: a ConflictError reaching the terminal error
translator does produce status 409, but the body message is the fixed generic
text, not "Email already exists" as the claim states. -/
theorem conflict_response_message_generic_cex :
    (errorHandler "production" (createCatch pgUniqueViolation).statusProp
        "Email already exists" "trace").status = 409 ∧
    (errorHandler "production" (createCatch pgUniqueViolation).statusProp
        "Email already exists" "trace").message ≠ "Email already exists" := by
  decide

/-- Claim C4 (amended): a ConflictError reaching the terminal error translator
yields status 409 with the generic body message "An unexpected error
occurred!" in every run mode; the specific text lives only in the thrown
error's own message. -/
theorem conflict_translates_409_generic_message (mode errStack : String) :
    (errorHandler mode (createCatch pgUniqueViolation).statusProp
        "Email already exists" errStack).status = 409 ∧
    (errorHandler mode (createCatch pgUniqueViolation).statusProp
        "Email already exists" errStack).message =
      "An unexpected error occurred!" := by
  constructor <;> rfl

/-- Claim C5: for a valid input (name of length at least 3, well-formed email)
whose email is not already in the table, create passes validation, responds
201 with a freshly assigned positive id carrying the submitted fields, and a
subsequent getById on that id returns the same row. The table hypotheses are
the serial-key invariants (`nextId` positive and above every existing id); the
201 shaping is modelled from the spec, the controller not being among the
given sources. -/
theorem create_then_get_roundtrip (s : DbState) (name email : String)
    (hname : 3 ≤ name.length) (hemail : isEmailFormat email = true)
    (hfresh : ∀ r ∈ s.rows, r.email ≠ some email)
    (hids : ∀ r ∈ s.rows, r.id < s.nextId)
    (hpos : 1 ≤ s.nextId) :
    validateUser { name := some (.str name), email := some (.str email),
                   extra := [] } = ValidationOutcome.pass ∧
    createUserHandler s name email =
      (({ status := 201, storageCalls := 1 },
        some { id := s.nextId, name := some name, email := some email }),
       { rows := s.rows ++
           [{ id := s.nextId, name := some name, email := some email }],
         nextId := s.nextId + 1 }) ∧
    0 < s.nextId ∧
    getUserByIdService
      { rows := s.rows ++
          [{ id := s.nextId, name := some name, email := some email }],
        nextId := s.nextId + 1 } s.nextId =
      some { id := s.nextId, name := some name, email := some email } := by
  have hany : s.rows.any (fun r => r.email = some email) = false := by
    rw [List.any_eq_false]
    intro r hr
    simpa using hfresh r hr
  refine ⟨?_, ?_, hpos, ?_⟩
  · have h3 : ¬ name.length < 3 := by omega
    simp only [validateUser, checkRequiredName, checkRequiredEmail]
    simp [h3, hemail]
  · unfold createUserHandler createUserService pgInsertUser
    simp [hany]
  · unfold getUserByIdService
    rw [find?_skip_front]
    · simp
    · intro r hr
      have := hids r hr
      simp
      omega

/-- Claim C5, witness: creating Ann in an empty table and reading her back. -/
theorem create_then_get_roundtrip_witness :
    validateUser { name := some (.str "Ann"), email := some (.str "ann@x.com"),
                   extra := [] } = ValidationOutcome.pass ∧
    createUserHandler { rows := [], nextId := 1 } "Ann" "ann@x.com" =
      (({ status := 201, storageCalls := 1 },
        some { id := 1, name := some "Ann", email := some "ann@x.com" }),
       { rows := [{ id := 1, name := some "Ann", email := some "ann@x.com" }],
         nextId := 2 }) ∧
    0 < 1 ∧
    getUserByIdService
      { rows := [{ id := 1, name := some "Ann", email := some "ann@x.com" }],
        nextId := 2 } 1 =
      some { id := 1, name := some "Ann", email := some "ann@x.com" } :=
  create_then_get_roundtrip { rows := [], nextId := 1 } "Ann" "ann@x.com"
    (by decide) (by decide) (by simp) (by simp) (by decide)

/-- Claim C6: the defined update validator does reject an empty body with 400
before any storage access, but the PUT /user/:id route binds the misspelled
name `validateUpdadeUser`, which resolves to no export of the validator
module — the code wires a nonexistent middleware where this check belongs, so
the route as written cannot perform it. -/
theorem empty_update_rejected_but_validator_unwired :
    validateUpdateUser { name := none, email := none, extra := [] } =
      ValidationOutcome.fail 400 "value must have at least 1 key" ∧
    routerRoutes.find? (fun r => r.method = "put") =
      some { method := "put", path := "/user/:id",
             handlers := ["validateUpdadeUser", "updateUser"] } ∧
    resolveValidator "validateUpdadeUser" = none :=
  ⟨by decide, by decide, by rfl⟩

/-- Claim C7, counterexample: a payload whose `name` and `email` both satisfy
their rules but which carries the unknown key "admin" fails create validation,
so validation does not succeed exactly when the two field rules hold. -/
theorem create_validation_unknown_key_cex :
    nameRuleB unknownKeyPayload.name = true ∧
    emailRuleB unknownKeyPayload.email = true ∧
    validateUser unknownKeyPayload ≠ ValidationOutcome.pass := by
  decide

/-- Claim C7 (amended): create validation succeeds exactly when `name` is
present as a string of length at least 3, `email` is present as a string in
email format, and the payload carries no key other than `name` and `email`;
any failure carries the single message of the first violated rule (the
validator responds with `error.details[0].message` only). -/
theorem create_validation_characterized (p : Payload) :
    (validateUser p = ValidationOutcome.pass) ↔
      (nameRuleB p.name = true ∧ emailRuleB p.email = true ∧ p.extra = []) := by
  unfold validateUser
  cases hn : checkRequiredName p.name with
  | some m =>
    have hb : nameRuleB p.name = false := by
      cases hb : nameRuleB p.name
      · rfl
      · rw [← checkRequiredName_none_iff, hn] at hb
        cases hb
    simp [hb]
  | none =>
    have hb : nameRuleB p.name = true := (checkRequiredName_none_iff p.name).mp hn
    cases he : checkRequiredEmail p.email with
    | some m =>
      have heb : emailRuleB p.email = false := by
        cases heb : emailRuleB p.email
        · rfl
        · rw [← checkRequiredEmail_none_iff, he] at heb
          cases heb
      simp [heb]
    | none =>
      have heb : emailRuleB p.email = true :=
        (checkRequiredEmail_none_iff p.email).mp he
      cases hx : p.extra with
      | nil => simp [hb, heb, hx]
      | cons k ks => simp [hb, heb, hx]

/-- Claim C8: the terminal error translator attaches the underlying error
detail and the diagnostic trace to the body exactly in non-production mode; in
production mode both fields are absent and the body is independent of the
error's message and stack. -/
theorem error_translator_mode_discipline (mode errMessage errStack : String)
    (st : Option Nat) :
    (mode ≠ "production" →
      (errorHandler mode st errMessage errStack).error = some errMessage ∧
      (errorHandler mode st errMessage errStack).stack = some errStack) ∧
    (errorHandler "production" st errMessage errStack).error = none ∧
    (errorHandler "production" st errMessage errStack).stack = none ∧
    (∀ m2 s2 : String,
      errorHandler "production" st errMessage errStack =
        errorHandler "production" st m2 s2) := by
  refine ⟨fun h => ⟨?_, ?_⟩, ?_, ?_, fun m2 s2 => ?_⟩
  · simp [errorHandler, h]
  · simp [errorHandler, h]
  · simp [errorHandler]
  · simp [errorHandler]
  · simp [errorHandler]

/-- Claim C8, witness in development mode. -/
theorem error_translator_mode_discipline_witness :
    (errorHandler "development" (some 500) "boom" "trace line").error =
      some "boom" ∧
    (errorHandler "development" (some 500) "boom" "trace line").stack =
      some "trace line" :=
  (error_translator_mode_discipline "development" "boom" "trace line"
    (some 500)).1 (by decide)

/-- Claim C9: the PUT /user/:id route is registered with the imported name
`validateUpdadeUser`, which is not among the named exports of the validator
module (those are `validateUser` and `validateUpdateUser`), so the middleware
wired into the update route is not the defined update validator. -/
theorem put_route_binds_missing_export :
    routerRoutes.find? (fun r => r.method = "put" && r.path = "/user/:id") =
      some { method := "put", path := "/user/:id",
             handlers := ["validateUpdadeUser", "updateUser"] } ∧
    "validateUpdadeUser" ∉ inputValidatorNamedExports ∧
    inputValidatorNamedExports = ["validateUser", "validateUpdateUser"] := by
  refine ⟨by decide, by decide, rfl⟩

/-- Claim C10: every payload carrying a key other than `name` and `email` is
rejected with 400 by the create validator and by the update validator alike,
so such payloads never pass validation. -/
theorem unknown_keys_always_rejected (p : Payload) (h : p.extra ≠ []) :
    (validateUser p).statusOf = some 400 ∧
    (validateUpdateUser p).statusOf = some 400 := by
  constructor
  · unfold validateUser
    cases checkRequiredName p.name with
    | some m => rfl
    | none =>
      cases checkRequiredEmail p.email with
      | some m => rfl
      | none =>
        cases hx : p.extra with
        | nil => exact absurd hx h
        | cons k ks => rfl
  · unfold validateUpdateUser
    cases checkOptionalName p.name with
    | some m => rfl
    | none =>
      cases checkOptionalEmail p.email with
      | some m => rfl
      | none =>
        cases hx : p.extra with
        | nil => exact absurd hx h
        | cons k ks => rfl

/-- Claim C10, witness: a body with valid fields plus the key "role". -/
theorem unknown_keys_always_rejected_witness :
    (validateUser { name := some (.str "John"), email := some (.str "john@y.com"),
                    extra := ["role"] }).statusOf = some 400 ∧
    (validateUpdateUser { name := some (.str "John"),
                          email := some (.str "john@y.com"),
                          extra := ["role"] }).statusOf = some 400 :=
  unknown_keys_always_rejected
    { name := some (.str "John"), email := some (.str "john@y.com"),
      extra := ["role"] }
    (by decide)
